import Mathlib

/-!
Formal model of the terminal "matrix rain" animation implemented in
`matrix_rain.py`.  The mutable Python objects are modelled as immutable
structures with explicit state passing.  Randomness is modelled by passing
the drawn values in explicitly: every operation that consumes randomness
takes the values it would draw as extra arguments, and theorems carry
hypotheses stating exactly the ranges the Python primitives guarantee
(`random.randint a b ∈ [a, b]`, `random.random() ∈ [0, 1)`,
`random.choice xs ∈ xs`).  Machine floats appear only in two comparisons
(`random.random() < density`, `index_from_end < effective_fade_len / 2.0`);
both are exact at the values the claims touch, and are modelled over ℚ and
ℤ respectively (for integers `i`, `e`, the real inequality `i < e / 2`
is equivalent to `2 * i < e`, and both sides are exactly representable as
floats for the magnitudes reachable here, `|e| ≤ 5`).
-/

/-- Configuration constant `MIN_STREAM_LENGTH = 7`. -/
def MIN_STREAM_LENGTH : Int := 7

/-- Configuration constant `MAX_STREAM_LENGTH = 38`. -/
def MAX_STREAM_LENGTH : Int := 38

/-- Configuration constant `STREAM_SPEED_MIN = 1`. -/
def STREAM_SPEED_MIN : Int := 1

/-- Configuration constant `STREAM_SPEED_MAX = 15`. -/
def STREAM_SPEED_MAX : Int := 15

/-- Configuration constant `FADE_LENGTH = 5`. -/
def FADE_LENGTH : Int := 5

/-- The glyph palette: `CHAR_SET = [chr(i) for i in range(0xFF61, 0xFF9F)]`,
the 62 half-width katakana code points 0xFF61 .. 0xFF9E. -/
def CHAR_SET : List Char := (List.range 62).map (fun i => Char.ofNat (0xFF61 + i))

/-- The random draws consumed by one call to `RainStream._reset`:
`lengthC` models `random.randint(min_len, max_len)` (consulted only when
`min_len < max_len`), `yC` models `random.randint(-length, -1)`,
`speedC` models `random.randint(STREAM_SPEED_MIN, STREAM_SPEED_MAX)`, and
`charsC` models the freshly drawn glyph list
`[random.choice(CHAR_SET) for _ in range(random.randint(1, length))]`. -/
structure ResetChoices where
  lengthC : Int
  yC : Int
  speedC : Int
  charsC : List Char
deriving DecidableEq

/-- The state of one `RainStream` object: its constructor-set fields
(`col`, `height`, `width`, `max_len`, `min_len`) and the fields written by
`_reset` and `update` (`length`, `y`, `speed`, `chars`, `update_counter`). -/
structure RainStream where
  col : Int
  height : Int
  width : Int
  max_len : Int
  min_len : Int
  length : Int
  y : Int
  speed : Int
  chars : List Char
  update_counter : Int
deriving DecidableEq

/-- The new target length chosen by `_reset`: exactly `min_len` when
`min_len >= max_len` (the code guards the `randint` call), otherwise the
`random.randint(min_len, max_len)` draw. -/
def resetLength (min_len max_len : Int) (c : ResetChoices) : Int :=
  if min_len ≥ max_len then min_len else c.lengthC

/-- `RainStream._reset` (lines 45-61): sets `length`, `y`, `speed`,
`chars` from the random draws and zeroes `update_counter`; every other
field is untouched. -/
def RainStream.reset (s : RainStream) (c : ResetChoices) : RainStream :=
  { s with length := resetLength s.min_len s.max_len c,
           y := c.yC,
           speed := c.speedC,
           chars := c.charsC,
           update_counter := 0 }

/-- The contract the Python random primitives guarantee for the draws
consumed by a `_reset` whose stream has the given `min_len` and `max_len`:
`randint` stays inside its bounds, the fresh glyph list has between 1 and
`length` glyphs each taken from the palette. -/
def ValidResetFor (min_len max_len : Int) (c : ResetChoices) : Prop :=
  (min_len < max_len → min_len ≤ c.lengthC ∧ c.lengthC ≤ max_len) ∧
  (-(resetLength min_len max_len c) ≤ c.yC ∧ c.yC ≤ -1) ∧
  (STREAM_SPEED_MIN ≤ c.speedC ∧ c.speedC ≤ STREAM_SPEED_MAX) ∧
  (1 ≤ c.charsC.length ∧ (c.charsC.length : Int) ≤ resetLength min_len max_len c) ∧
  (∀ ch ∈ c.charsC, ch ∈ CHAR_SET)

instance (a b : Int) (c : ResetChoices) : Decidable (ValidResetFor a b c) := by
  unfold ValidResetFor
  infer_instance

/-- `RainStream.__init__` (lines 27-39): clamps the configured length
bounds to the terminal height (`max_len = min(MAX_STREAM_LENGTH, height-1)`,
`min_len = min(MIN_STREAM_LENGTH, max_len)` raised to 3 when ≤ 2, then
`max_len` raised to `min_len` when below it) and calls `_reset`. -/
def RainStream.init (col height width : Int) (c : ResetChoices) : RainStream :=
  let max0 := min MAX_STREAM_LENGTH (height - 1)
  let min0 := min MIN_STREAM_LENGTH max0
  let min1 := if min0 ≤ 2 then 3 else min0
  let max1 := if max0 < min1 then min1 else max0
  RainStream.reset
    { col := col, height := height, width := width,
      max_len := max1, min_len := min1,
      length := 0, y := 0, speed := 0, chars := [], update_counter := 0 } c

/-- The glitch loop of `update` (lines 90-95), indexed from `i`: every
glyph at absolute index ≥ 2 is replaced by `g idx` when that draw fired
(`g idx = some c` models `random.random() < 0.05` succeeding with fresh
glyph `c`; `none` models the 95% no-change case); indices 0 and 1 are
never touched. -/
def glitchAux (g : Nat → Option Char) : Nat → List Char → List Char
  | _, [] => []
  | i, c :: cs => (if 2 ≤ i then (g i).getD c else c) :: glitchAux g (i + 1) cs

/-- The glitch pass over a whole buffer, starting at absolute index 0. -/
def glitchChars (cs : List Char) (g : Nat → Option Char) : List Char :=
  glitchAux g 0 cs

/-- `RainStream.update` (lines 63-95): stores the current height, recomputes
`max_len`, increments the counter; when the counter reaches `speed` the
stream moves one row, recycles via `_reset` (returning at once) when even
its tail has left the screen, and otherwise gains a head glyph and loses
its tail glyph once over target length; finally (on every non-recycling
call) the glitch pass runs.  `rc` carries the draws a recycling `_reset`
would consume, `newChar` the head draw, `g` the glitch draws. -/
def RainStream.update (s : RainStream) (current_height : Int)
    (rc : ResetChoices) (newChar : Char) (g : Nat → Option Char) : RainStream :=
  let s1 : RainStream :=
    { s with height := current_height,
             max_len := min MAX_STREAM_LENGTH (current_height - 1) }
  if s1.update_counter + 1 ≥ s1.speed then
    let s2 : RainStream := { s1 with y := s1.y + 1, update_counter := 0 }
    if s2.y ≥ s2.height + s2.length then
      s2.reset rc
    else
      let cs := newChar :: s2.chars
      let cs2 := if (cs.length : Int) > s2.length then cs.dropLast else cs
      { s2 with chars := glitchChars cs2 g }
  else
    { s1 with update_counter := s1.update_counter + 1,
              chars := glitchChars s1.chars g }

/-- A curses text attribute as composed by `draw`: the color pair number
together with the A_BOLD and A_DIM flags. -/
structure Attr where
  pair : Nat
  bold : Bool
  dim : Bool
deriving DecidableEq

/-- `curses.color_pair(2) | HEAD_CHAR_BRIGHTNESS` (white, bold). -/
def headAttr : Attr := { pair := 2, bold := true, dim := false }

/-- `curses.color_pair(1) | SECOND_CHAR_BRIGHTNESS` (green, bold). -/
def secondAttr : Attr := { pair := 1, bold := true, dim := false }

/-- `curses.color_pair(1) | curses.A_DIM` (dim green). -/
def dimAttr : Attr := { pair := 1, bold := false, dim := true }

/-- `curses.color_pair(1)` as used at the start of the fade zone
(normal green; identical bits to `bodyAttr`). -/
def fadeAttr : Attr := { pair := 1, bold := false, dim := false }

/-- `curses.color_pair(1)` for plain body characters (normal green). -/
def bodyAttr : Attr := { pair := 1, bold := false, dim := false }

/-- Attribute value 0: what `screen.addstr(y, x, ch)` uses for the
tail-erasing space. -/
def blankAttr : Attr := { pair := 0, bold := false, dim := false }

/-- The attribute `draw` computes for the glyph at buffer index `i` of a
buffer of length `stream_len` (lines 109-135).  The float comparison
`index_from_end < effective_fade_len / 2.0` is rendered integrally as
`2 * index_from_end < effective_fade_len`, which is equivalent over the
reals and exact for the float magnitudes reachable here. -/
def charAttr (i : Nat) (stream_len : Nat) : Attr :=
  if i = 0 then headAttr
  else if i = 1 ∧ 1 < stream_len then secondAttr
  else
    let effective_fade_len : Int := min FADE_LENGTH (max 1 ((stream_len : Int) - 2))
    let index_from_end : Int := (stream_len : Int) - 1 - (i : Int)
    if index_from_end < effective_fade_len then
      if 2 * index_from_end < effective_fade_len then dimAttr else fadeAttr
    else bodyAttr

/-- The styling rule exactly as the specification words it, for indices
≥ 2: dim when `distance_from_tail < effective_fade / 2`, normal-fade when
`distance_from_tail < effective_fade`, otherwise normal body style.  Kept
separate from `charAttr` (which mirrors the code) so the two can be
compared. -/
def specBodyStyle (i : Nat) (buffer_length : Nat) : Attr :=
  let effective_fade : Int := min FADE_LENGTH (max 1 ((buffer_length : Int) - 2))
  let distance_from_tail : Int := (buffer_length : Int) - 1 - (i : Int)
  if 2 * distance_from_tail < effective_fade then dimAttr
  else if distance_from_tail < effective_fade then fadeAttr
  else bodyAttr

/-- One `screen.addstr(row, col, ch, attr)` call recorded abstractly. -/
structure CellWrite where
  row : Int
  col : Int
  ch : Char
  attr : Attr
deriving DecidableEq

/-- The glyph-drawing loop of `draw` (lines 103-139), indexed from `i`:
each glyph is written at row `y - i` in the stream's column when that row
is inside `[0, height)`, with the attribute `charAttr` computes; rows
outside the screen produce no write. -/
def glyphWritesAux (y0 colv height : Int) (stream_len : Nat) :
    Nat → List Char → List CellWrite
  | _, [] => []
  | i, c :: cs =>
    (if 0 ≤ y0 - (i : Int) ∧ y0 - (i : Int) < height then
        [{ row := y0 - (i : Int), col := colv, ch := c, attr := charAttr i stream_len }]
      else []) ++ glyphWritesAux y0 colv height stream_len (i + 1) cs

/-- The tail-erase step of `draw` (lines 145-154): once the buffer has
reached the target length, a space is written at `y - length` provided
that row is on screen and strictly above the head. -/
def eraseWrites (s : RainStream) : List CellWrite :=
  if (s.chars.length : Int) ≥ s.length then
    if 0 ≤ s.y - s.length ∧ s.y - s.length < s.height ∧ s.y - s.length < s.y then
      [{ row := s.y - s.length, col := s.col, ch := ' ', attr := blankAttr }]
    else []
  else []

/-- All grid writes one call to `draw` performs, in order: the glyph
writes followed by the optional tail erase. -/
def RainStream.drawWrites (s : RainStream) : List CellWrite :=
  glyphWritesAux s.y s.col s.height s.chars.length 0 s.chars ++ eraseWrites s

/-- `RainStream.draw` (lines 98-154) as a state transformer: it emits the
grid writes and returns the stream unchanged — the Python body assigns
only local variables (`last_drawn_y`, `stream_len`, loop variables), never
a `self` field. -/
def RainStream.draw (s : RainStream) : List CellWrite × RainStream :=
  (s.drawWrites, s)

/-- The space write whose presence the tail-erase step is responsible
for: row `y - length`, the stream's column, attribute 0. -/
def blankWriteOf (s : RainStream) : CellWrite :=
  { row := s.y - s.length, col := s.col, ch := ' ', attr := blankAttr }

/-- `create_streams(w, h)` (lines 184-190) with the density made explicit
(the source fixes it to the constant `STREAM_DENSITY = 0.6`; the claims
quantify over density values, all exactly representable).  `r col` models
the `random.random()` draw for column `col`; the column is active when
`r col < density`.  Returns `[]` outright when `h ≤ 2`. -/
def create_streams (w h : Int) (density : ℚ) (r : Nat → ℚ)
    (rc : Nat → ResetChoices) : List RainStream :=
  if h ≤ 2 then []
  else
    (List.range w.toNat).filterMap (fun col =>
      if r col < density then some (RainStream.init (col : Int) h w (rc col))
      else none)

/-- A palette glyph (half-width katakana letter WO) used for concrete
instantiations. -/
def sampleChar : Char := Char.ofNat 0xFF66

/-- A concrete, contract-respecting bundle of reset draws. -/
def sampleReset : ResetChoices :=
  { lengthC := 3, yC := -1, speedC := 1, charsC := [sampleChar] }

/-- Glitch draws that never fire. -/
def gNone : Nat → Option Char := fun _ => none

/-- A concrete stream whose whole body has exited below a height-10
screen and whose speed counter fires on the next update. -/
def sampleStreamExit : RainStream :=
  { col := 0, height := 10, width := 10, max_len := 9, min_len := 3,
    length := 3, y := 13, speed := 1, chars := [sampleChar],
    update_counter := 0 }

/-- A concrete stream whose whole body has exited below a height-10
screen but whose speed counter does not fire on the next update
(speed 2, counter 0).  Reachable: a stream at `y = 13` under height 60
keeps `y` when the terminal shrinks to height 10 mid-flight. -/
def sampleStreamStuck : RainStream :=
  { col := 0, height := 10, width := 10, max_len := 9, min_len := 3,
    length := 3, y := 13, speed := 2, chars := [sampleChar],
    update_counter := 0 }

/-- A concrete stream whose clamped bounds have been inverted by a resize:
constructed under a tall terminal (`min_len = 7`), then updated at height
4 so that `max_len = min(38, 3) = 3 < min_len`. -/
def sampleStreamShrunk : RainStream :=
  { col := 0, height := 4, width := 10, max_len := 3, min_len := 7,
    length := 12, y := 2, speed := 1, chars := [sampleChar],
    update_counter := 0 }

lemma glitchAux_length (g : Nat → Option Char) :
    ∀ (cs : List Char) (i : Nat), (glitchAux g i cs).length = cs.length := by
  intro cs
  induction cs with
  | nil => intro i; rfl
  | cons c cs ih => intro i; simp [glitchAux, ih]

lemma glitchChars_length (cs : List Char) (g : Nat → Option Char) :
    (glitchChars cs g).length = cs.length :=
  glitchAux_length g cs 0

lemma glitchAux_get (g : Nat → Option Char) :
    ∀ (cs : List Char) (i j : Nat),
      (glitchAux g i cs).get? j =
        (cs.get? j).map (fun c => if 2 ≤ i + j then (g (i + j)).getD c else c) := by
  intro cs
  induction cs with
  | nil => intro i j; simp [glitchAux]
  | cons c cs ih =>
    intro i j
    cases j with
    | zero => simp [glitchAux]
    | succ j =>
      have hik : i + 1 + j = i + (j + 1) := by omega
      simp only [glitchAux, List.get?_cons_succ]
      rw [ih (i + 1) j, hik]

lemma reset_props (s : RainStream) (c : ResetChoices)
    (h : ValidResetFor s.min_len s.max_len c) :
    (s.min_len ≥ s.max_len → (s.reset c).length = s.min_len) ∧
    (s.min_len < s.max_len →
        s.min_len ≤ (s.reset c).length ∧ (s.reset c).length ≤ s.max_len) ∧
    (-(s.reset c).length ≤ (s.reset c).y ∧ (s.reset c).y ≤ -1) ∧
    (STREAM_SPEED_MIN ≤ (s.reset c).speed ∧ (s.reset c).speed ≤ STREAM_SPEED_MAX) ∧
    (s.reset c).update_counter = 0 ∧
    (1 ≤ (s.reset c).chars.length ∧
      ((s.reset c).chars.length : Int) ≤ (s.reset c).length) ∧
    (∀ ch ∈ (s.reset c).chars, ch ∈ CHAR_SET) := by
  obtain ⟨h1, h2, h3, h4, h5⟩ := h
  simp only [RainStream.reset, resetLength] at *
  refine ⟨?_, ?_, h2, h3, by trivial, h4, h5⟩
  · intro hge
    rw [if_pos hge]
  · intro hlt
    rw [if_neg (by omega)]
    exact h1 hlt

/-- C3 (amended): immediately after a reset whose random draws respect the
contracts of the Python primitives, the new length is exactly `min_len`
when `min_len ≥ max_len` (in particular when they are equal) and lies in
`[min_len, max_len]` when `min_len < max_len`; the position lies in
`[-length, -1]`, the speed in `[STREAM_SPEED_MIN, STREAM_SPEED_MAX]`, the
tick counter is zero, and the buffer holds between 1 and `length` glyphs,
all from the palette. -/
theorem spec_C3 (s : RainStream) (rc : ResetChoices)
    (hrc : ValidResetFor s.min_len s.max_len rc) :
    (s.min_len ≥ s.max_len → (s.reset rc).length = s.min_len) ∧
    (s.min_len < s.max_len →
        s.min_len ≤ (s.reset rc).length ∧ (s.reset rc).length ≤ s.max_len) ∧
    (-(s.reset rc).length ≤ (s.reset rc).y ∧ (s.reset rc).y ≤ -1) ∧
    (STREAM_SPEED_MIN ≤ (s.reset rc).speed ∧ (s.reset rc).speed ≤ STREAM_SPEED_MAX) ∧
    (s.reset rc).update_counter = 0 ∧
    (1 ≤ (s.reset rc).chars.length ∧
      ((s.reset rc).chars.length : Int) ≤ (s.reset rc).length) ∧
    (∀ ch ∈ (s.reset rc).chars, ch ∈ CHAR_SET) :=
  reset_props s rc hrc

/-- Witness for C3 on a concrete stream with `min_len = 3 < max_len = 9`
and concrete valid draws. -/
theorem spec_C3_witness :
    ValidResetFor sampleStreamExit.min_len sampleStreamExit.max_len sampleReset ∧
    ((sampleStreamExit.min_len ≥ sampleStreamExit.max_len →
        (sampleStreamExit.reset sampleReset).length = sampleStreamExit.min_len) ∧
      (sampleStreamExit.min_len < sampleStreamExit.max_len →
        sampleStreamExit.min_len ≤ (sampleStreamExit.reset sampleReset).length ∧
          (sampleStreamExit.reset sampleReset).length ≤ sampleStreamExit.max_len) ∧
      (-(sampleStreamExit.reset sampleReset).length ≤ (sampleStreamExit.reset sampleReset).y ∧
        (sampleStreamExit.reset sampleReset).y ≤ -1) ∧
      (STREAM_SPEED_MIN ≤ (sampleStreamExit.reset sampleReset).speed ∧
        (sampleStreamExit.reset sampleReset).speed ≤ STREAM_SPEED_MAX) ∧
      (sampleStreamExit.reset sampleReset).update_counter = 0 ∧
      (1 ≤ (sampleStreamExit.reset sampleReset).chars.length ∧
        ((sampleStreamExit.reset sampleReset).chars.length : Int) ≤
          (sampleStreamExit.reset sampleReset).length) ∧
      (∀ ch ∈ (sampleStreamExit.reset sampleReset).chars, ch ∈ CHAR_SET)) :=
  ⟨by decide, spec_C3 sampleStreamExit sampleReset (by decide)⟩

/-- Counterexample to C3 as stated: a stream whose clamped bounds were
inverted by a live resize (`min_len = 7 > max_len = 3`, reachable because
`update` recomputes `max_len` from the new height but never touches
`min_len`) resets to `length = 7`, which is not in `[min_len, max_len]`:
it exceeds `max_len`. -/
theorem spec_C3_cex :
    ValidResetFor sampleStreamShrunk.min_len sampleStreamShrunk.max_len sampleReset ∧
    sampleStreamShrunk.min_len = 7 ∧ sampleStreamShrunk.max_len = 3 ∧
    (sampleStreamShrunk.reset sampleReset).length = 7 ∧
    ¬((sampleStreamShrunk.reset sampleReset).length ≤
        (sampleStreamShrunk.reset sampleReset).max_len) := by
  exact ⟨by decide, by decide, by decide, by decide, by decide⟩

/-- C1: one call to `update` preserves the buffer-size invariant
`len(chars) ≤ length`, for every stream state, every nonnegative current
height, and every bundle of random draws respecting the Python
primitives' contracts (the reset draws are validated against the bounds
the stream has at reset time, i.e. with `max_len` already recomputed from
the current height). -/
theorem spec_C1 (s : RainStream) (current_height : Int) (rc : ResetChoices)
    (newChar : Char) (g : Nat → Option Char)
    (hh : 0 ≤ current_height)
    (hrc : ValidResetFor s.min_len (min MAX_STREAM_LENGTH (current_height - 1)) rc)
    (hpre : (s.chars.length : Int) ≤ s.length) :
    ((s.update current_height rc newChar g).chars.length : Int) ≤
      (s.update current_height rc newChar g).length := by
  obtain ⟨h1, h2, h3, ⟨h4a, h4b⟩, h5⟩ := hrc
  simp only [RainStream.update]
  split_ifs with hfire hexit hover
  · simpa [RainStream.reset, resetLength] using h4b
  · simp only [glitchChars_length, List.length_dropLast, List.length_cons,
      Nat.add_sub_cancel]
    exact hpre
  · simp only [glitchChars_length, List.length_cons] at *
    push_cast at hover ⊢
    omega
  · simp only [glitchChars_length]
    exact hpre

/-- Witness for C1 on a concrete stream that recycles during the call. -/
theorem spec_C1_witness :
    (0 : Int) ≤ 10 ∧
    ValidResetFor sampleStreamExit.min_len (min MAX_STREAM_LENGTH (10 - 1)) sampleReset ∧
    ((sampleStreamExit.chars.length : Int) ≤ sampleStreamExit.length) ∧
    (((sampleStreamExit.update 10 sampleReset sampleChar gNone).chars.length : Int) ≤
      (sampleStreamExit.update 10 sampleReset sampleChar gNone).length) :=
  ⟨by decide, by decide, by decide,
    spec_C1 sampleStreamExit 10 sampleReset sampleChar gNone (by decide) (by decide)
      (by decide)⟩

/-- C8: `draw` is a pure function of the stream state: it leaves every
field unchanged (the Python body assigns only local variables), so calling
it twice with no intervening `update` yields identical write sequences. -/
theorem spec_C8 (s : RainStream) :
    (RainStream.draw s).2 = s ∧
    ((RainStream.draw s).2.draw).1 = (RainStream.draw s).1 :=
  ⟨rfl, rfl⟩

/-- C2 (amended): a stream whose whole body has exited below the screen
(`y ≥ current_height + length`) recycles on the next `update` whose speed
counter fires (`update_counter + 1 ≥ speed`): afterwards its position lies
in `[-new_length, -1]` and its buffer is freshly drawn, holding between
1 and `new_length` palette glyphs. -/
theorem spec_C2 (s : RainStream) (current_height : Int) (rc : ResetChoices)
    (newChar : Char) (g : Nat → Option Char)
    (hfire : s.update_counter + 1 ≥ s.speed)
    (hexit : s.y ≥ current_height + s.length)
    (hrc : ValidResetFor s.min_len (min MAX_STREAM_LENGTH (current_height - 1)) rc) :
    (-(s.update current_height rc newChar g).length ≤
        (s.update current_height rc newChar g).y ∧
      (s.update current_height rc newChar g).y ≤ -1) ∧
    (1 ≤ (s.update current_height rc newChar g).chars.length ∧
      ((s.update current_height rc newChar g).chars.length : Int) ≤
        (s.update current_height rc newChar g).length) ∧
    (∀ ch ∈ (s.update current_height rc newChar g).chars, ch ∈ CHAR_SET) := by
  obtain ⟨h1, h2, h3, h4, h5⟩ := hrc
  simp only [RainStream.update]
  rw [if_pos hfire, if_pos (show s.y + 1 ≥ current_height + s.length from by omega)]
  simp only [RainStream.reset, resetLength] at h2 h4 ⊢
  exact ⟨h2, h4, h5⟩

/-- Witness for C2 (amended) on a concrete exited stream whose counter
fires. -/
theorem spec_C2_witness :
    sampleStreamExit.update_counter + 1 ≥ sampleStreamExit.speed ∧
    sampleStreamExit.y ≥ 10 + sampleStreamExit.length ∧
    ValidResetFor sampleStreamExit.min_len (min MAX_STREAM_LENGTH (10 - 1)) sampleReset ∧
    ((-(sampleStreamExit.update 10 sampleReset sampleChar gNone).length ≤
        (sampleStreamExit.update 10 sampleReset sampleChar gNone).y ∧
      (sampleStreamExit.update 10 sampleReset sampleChar gNone).y ≤ -1) ∧
    (1 ≤ (sampleStreamExit.update 10 sampleReset sampleChar gNone).chars.length ∧
      ((sampleStreamExit.update 10 sampleReset sampleChar gNone).chars.length : Int) ≤
        (sampleStreamExit.update 10 sampleReset sampleChar gNone).length) ∧
    (∀ ch ∈ (sampleStreamExit.update 10 sampleReset sampleChar gNone).chars,
        ch ∈ CHAR_SET)) :=
  ⟨by decide, by decide, by decide,
    spec_C2 sampleStreamExit 10 sampleReset sampleChar gNone (by decide) (by decide)
      (by decide)⟩

/-- Counterexample to C2 as stated: a stream with `y = 13 ≥ 10 + 3`
before the tick (reachable when the terminal shrank mid-flight) whose
speed counter does not fire this tick (`speed = 2`, counter 0) does not
recycle during `update`: its position stays 13, not in `[-len, -1]`. -/
theorem spec_C2_cex :
    sampleStreamStuck.y ≥ 10 + sampleStreamStuck.length ∧
    ValidResetFor sampleStreamStuck.min_len (min MAX_STREAM_LENGTH (10 - 1)) sampleReset ∧
    (sampleStreamStuck.update 10 sampleReset sampleChar gNone).y = 13 ∧
    ¬((sampleStreamStuck.update 10 sampleReset sampleChar gNone).y ≤ -1) :=
  ⟨by decide, by decide, by decide, by decide⟩

/-- C5 (amended): after the clamping in the constructor,
`1 ≤ min_len ≤ max_len ≤ max 3 (height - 1)` for every column, height and
width; the upper bound is `height - 1` itself whenever `height ≥ 4`, but
the raise-to-3 floor pushes `max_len` to 3 above `height - 1` on smaller
heights. -/
theorem spec_C5 (col height width : Int) (c : ResetChoices) :
    1 ≤ (RainStream.init col height width c).min_len ∧
    (RainStream.init col height width c).min_len ≤
      (RainStream.init col height width c).max_len ∧
    (RainStream.init col height width c).max_len ≤ max 3 (height - 1) := by
  simp only [RainStream.init, RainStream.reset, MIN_STREAM_LENGTH, MAX_STREAM_LENGTH]
  split_ifs <;> omega

/-- Counterexample to C5 as stated: at terminal height 3 (a viable height,
`create_streams` builds streams for every height > 2) the clamped bounds
are `min_len = max_len = 3`, and `3 ≤ height - 1 = 2` fails. -/
theorem spec_C5_cex :
    (RainStream.init 0 3 1 sampleReset).max_len = 3 ∧
    ¬((RainStream.init 0 3 1 sampleReset).max_len ≤ 3 - 1) :=
  ⟨by decide, by decide⟩

lemma glitchChars_get (cs : List Char) (g : Nat → Option Char) (j : Nat) :
    (glitchChars cs g).get? j =
      (cs.get? j).map (fun c => if 2 ≤ j then (g j).getD c else c) := by
  rw [glitchChars, glitchAux_get]
  simp

/-- C10: when the speed counter does not fire, `update` leaves position,
target length, speed, column, buffer size and the first two buffer entries
unchanged; each deeper entry is either unchanged or replaced by a palette
glyph (assuming the glitch draws produce palette glyphs); the counter is
incremented, `max_len` is recomputed from the current height and the
stored height is refreshed. -/
theorem spec_C10 (s : RainStream) (current_height : Int) (rc : ResetChoices)
    (newChar : Char) (g : Nat → Option Char)
    (hfire : s.update_counter + 1 < s.speed)
    (hg : ∀ i c, g i = some c → c ∈ CHAR_SET) :
    (s.update current_height rc newChar g).y = s.y ∧
    (s.update current_height rc newChar g).length = s.length ∧
    (s.update current_height rc newChar g).speed = s.speed ∧
    (s.update current_height rc newChar g).col = s.col ∧
    (s.update current_height rc newChar g).chars.length = s.chars.length ∧
    (∀ j, j < 2 →
        (s.update current_height rc newChar g).chars.get? j = s.chars.get? j) ∧
    (∀ j, 2 ≤ j →
        (s.update current_height rc newChar g).chars.get? j = s.chars.get? j ∨
        ∃ c, (s.update current_height rc newChar g).chars.get? j = some c ∧
          c ∈ CHAR_SET) ∧
    (s.update current_height rc newChar g).update_counter = s.update_counter + 1 ∧
    (s.update current_height rc newChar g).max_len =
      min MAX_STREAM_LENGTH (current_height - 1) ∧
    (s.update current_height rc newChar g).height = current_height := by
  have hupd : s.update current_height rc newChar g =
      { s with height := current_height,
               max_len := min MAX_STREAM_LENGTH (current_height - 1),
               update_counter := s.update_counter + 1,
               chars := glitchChars s.chars g } := by
    simp only [RainStream.update]
    rw [if_neg (by omega)]
  rw [hupd]
  refine ⟨rfl, rfl, rfl, rfl, glitchChars_length s.chars g, ?_, ?_, rfl, rfl, rfl⟩
  · intro j hj
    have hnot : ¬ (2 ≤ j) := by omega
    rw [glitchChars_get]
    cases hx : s.chars.get? j with
    | none => simp
    | some c => simp [hnot]
  · intro j hj
    rw [glitchChars_get]
    cases hx : s.chars.get? j with
    | none => left; simp
    | some c =>
      simp only [Option.map_some', hj, if_true, if_pos]
      cases hgj : g j with
      | none => left; simp [hgj]
      | some cg =>
        right
        exact ⟨cg, by simp [hgj, hj], hg _ _ hgj⟩

/-- Witness for C10 on a concrete slow stream (speed 2, counter 0) with
glitch draws that never fire. -/
theorem spec_C10_witness :
    sampleStreamStuck.update_counter + 1 < sampleStreamStuck.speed ∧
    (∀ i c, gNone i = some c → c ∈ CHAR_SET) ∧
    ((sampleStreamStuck.update 10 sampleReset sampleChar gNone).y = sampleStreamStuck.y ∧
    (sampleStreamStuck.update 10 sampleReset sampleChar gNone).length = sampleStreamStuck.length ∧
    (sampleStreamStuck.update 10 sampleReset sampleChar gNone).speed = sampleStreamStuck.speed ∧
    (sampleStreamStuck.update 10 sampleReset sampleChar gNone).col = sampleStreamStuck.col ∧
    (sampleStreamStuck.update 10 sampleReset sampleChar gNone).chars.length =
      sampleStreamStuck.chars.length ∧
    (∀ j, j < 2 →
        (sampleStreamStuck.update 10 sampleReset sampleChar gNone).chars.get? j =
          sampleStreamStuck.chars.get? j) ∧
    (∀ j, 2 ≤ j →
        (sampleStreamStuck.update 10 sampleReset sampleChar gNone).chars.get? j =
          sampleStreamStuck.chars.get? j ∨
        ∃ c, (sampleStreamStuck.update 10 sampleReset sampleChar gNone).chars.get? j =
          some c ∧ c ∈ CHAR_SET) ∧
    (sampleStreamStuck.update 10 sampleReset sampleChar gNone).update_counter =
      sampleStreamStuck.update_counter + 1 ∧
    (sampleStreamStuck.update 10 sampleReset sampleChar gNone).max_len =
      min MAX_STREAM_LENGTH (10 - 1) ∧
    (sampleStreamStuck.update 10 sampleReset sampleChar gNone).height = 10) :=
  ⟨by decide, fun i c hc => by simp [gNone] at hc,
    spec_C10 sampleStreamStuck 10 sampleReset sampleChar gNone (by decide)
      (fun i c hc => by simp [gNone] at hc)⟩

lemma charAttr_pair_ne_zero (i L : Nat) : (charAttr i L).pair ≠ 0 := by
  unfold charAttr
  dsimp only
  split_ifs <;> decide

lemma glyphWritesAux_attr (y0 colv height : Int) (L : Nat) :
    ∀ (cs : List Char) (i : Nat) (w : CellWrite),
      w ∈ glyphWritesAux y0 colv height L i cs → w.attr.pair ≠ 0 := by
  intro cs
  induction cs with
  | nil =>
    intro i w hw
    simp [glyphWritesAux] at hw
  | cons c cs ih =>
    intro i w hw
    simp only [glyphWritesAux] at hw
    rcases List.mem_append.mp hw with h | h
    · by_cases hc : 0 ≤ y0 - (i : Int) ∧ y0 - (i : Int) < height
      · rw [if_pos hc] at h
        have hw2 : w = CellWrite.mk (y0 - (i : Int)) colv c (charAttr i L) :=
          List.mem_singleton.mp h
        rw [hw2]
        exact charAttr_pair_ne_zero i L
      · rw [if_neg hc] at h
        exact absurd h (List.not_mem_nil _)
    · exact ih (i + 1) w h

/-- C7: the space write at row `position - length` in the stream's column
occurs among the writes of `draw` exactly when the buffer has reached the
target length and that row is on screen and strictly above the head; no
other write of `draw` is such an erase (every glyph write carries a
nonzero color pair, the erase carries attribute 0). -/
theorem spec_C7 (s : RainStream) :
    blankWriteOf s ∈ s.drawWrites ↔
      ((s.chars.length : Int) ≥ s.length ∧ 0 ≤ s.y - s.length ∧
        s.y - s.length < s.height ∧ s.y - s.length < s.y) := by
  constructor
  · intro hm
    unfold RainStream.drawWrites at hm
    rcases List.mem_append.mp hm with hg | he
    · exfalso
      exact glyphWritesAux_attr s.y s.col s.height s.chars.length
        s.chars 0 (blankWriteOf s) hg rfl
    · unfold eraseWrites at he
      by_cases h1 : (s.chars.length : Int) ≥ s.length
      · rw [if_pos h1] at he
        by_cases h2 : 0 ≤ s.y - s.length ∧ s.y - s.length < s.height ∧
            s.y - s.length < s.y
        · exact ⟨h1, h2.1, h2.2.1, h2.2.2⟩
        · rw [if_neg h2] at he
          exact absurd he (List.not_mem_nil _)
      · rw [if_neg h1] at he
        exact absurd he (List.not_mem_nil _)
  · intro hc
    obtain ⟨h1, h2, h3, h4⟩ := hc
    unfold RainStream.drawWrites
    refine List.mem_append.mpr (Or.inr ?_)
    unfold eraseWrites
    rw [if_pos h1, if_pos ⟨h2, h3, h4⟩]
    exact List.mem_singleton.mpr rfl

/-- C4: for any buffer of length at least 2, `draw` styles index 0 with
the head attribute and index 1 with the second-character attribute, and
every in-range index ≥ 2 gets exactly the style the specification words
prescribe (`specBodyStyle`): dim when `distance_from_tail` is below half
the effective fade, normal-fade when below the effective fade, otherwise
the normal body style. -/
theorem spec_C4 (L i : Nat) (hL : 2 ≤ L) (h2 : 2 ≤ i) (hi : i < L) :
    charAttr 0 L = headAttr ∧ charAttr 1 L = secondAttr ∧
    charAttr i L = specBodyStyle i L := by
  refine ⟨rfl, ?_, ?_⟩
  · unfold charAttr
    rw [if_neg (show ¬(1 = 0) from by omega), if_pos ⟨rfl, by omega⟩]
  · unfold charAttr specBodyStyle
    rw [if_neg (show ¬(i = 0) from by omega),
      if_neg (show ¬(i = 1 ∧ 1 < L) from fun hcon => by omega)]
    dsimp only
    simp only [FADE_LENGTH]
    have hd : (0 : Int) ≤ (L : Int) - 1 - (i : Int) := by omega
    split_ifs <;> first | rfl | (exfalso; omega)

/-- Witness for C4 at a concrete buffer length 7 and index 4. -/
theorem spec_C4_witness :
    2 ≤ 7 ∧ 2 ≤ 4 ∧ 4 < 7 ∧
    (charAttr 0 7 = headAttr ∧ charAttr 1 7 = secondAttr ∧
      charAttr 4 7 = specBodyStyle 4 7) :=
  ⟨by decide, by decide, by decide, spec_C4 7 4 (by decide) (by decide) (by decide)⟩

/-- C9: `create_streams` returns no streams when the height is at most 2;
every stream it returns sits in a column inside `[0, width)`; and with
density 0 it returns no streams at all (every `random.random()` draw is
nonnegative, so no column activates). -/
theorem spec_C9 (w h : Int) (density : ℚ) (r : Nat → ℚ) (rc : Nat → ResetChoices) :
    (h ≤ 2 → create_streams w h density r rc = []) ∧
    (∀ s ∈ create_streams w h density r rc, 0 ≤ s.col ∧ s.col < w) ∧
    ((∀ i, 0 ≤ r i) → create_streams w h 0 r rc = []) := by
  refine ⟨?_, ?_, ?_⟩
  · intro hle
    unfold create_streams
    rw [if_pos hle]
  · intro s hs
    unfold create_streams at hs
    by_cases hle : h ≤ 2
    · rw [if_pos hle] at hs
      exact absurd hs (List.not_mem_nil _)
    · rw [if_neg hle] at hs
      obtain ⟨col, hcol, hsome⟩ := List.mem_filterMap.mp hs
      by_cases hact : r col < density
      · rw [if_pos hact] at hsome
        have hs2 : s = RainStream.init (col : Int) h w (rc col) :=
          (Option.some.inj hsome).symm
        have hcolval : s.col = (col : Int) := by
          rw [hs2]
          rfl
        have hcol2 : col < w.toNat := List.mem_range.mp hcol
        rw [hcolval]
        omega
      · rw [if_neg hact] at hsome
        exact absurd hsome (by simp)
  · intro hr
    unfold create_streams
    by_cases hle : h ≤ 2
    · rw [if_pos hle]
    · rw [if_neg hle]
      refine List.filterMap_eq_nil_iff.mpr ?_
      intro col hcol
      rw [if_neg (hr col).not_lt]

/-- Witness for C9: a height-2 terminal yields no streams, and density 0
yields no streams on a viable terminal. -/
theorem spec_C9_witness :
    ((2 : Int) ≤ 2) ∧
    create_streams 3 2 (1/2) (fun _ => 0) (fun _ => sampleReset) = [] ∧
    (∀ i : Nat, (0 : ℚ) ≤ (fun _ : Nat => (0 : ℚ)) i) ∧
    create_streams 3 5 0 (fun _ => 0) (fun _ => sampleReset) = [] :=
  ⟨le_refl 2,
    (spec_C9 3 2 (1/2) (fun _ => 0) (fun _ => sampleReset)).1 (le_refl 2),
    fun i => le_refl 0,
    (spec_C9 3 5 0 (fun _ => 0) (fun _ => sampleReset)).2.2 (fun i => le_refl 0)⟩

/-- C6: building at width 1, height 3, density 1 activates exactly one
stream (every `random.random()` draw is below 1), in column 0, and every
reset of that stream chooses length exactly 3: the clamping gives
`min_len = max_len = 3`, so `_reset` never consults its `randint` draw. -/
theorem spec_C6 (r : Nat → ℚ) (rc : Nat → ResetChoices)
    (hr : ∀ i, 0 ≤ r i ∧ r i < 1) :
    create_streams 1 3 1 r rc = [RainStream.init 0 3 1 (rc 0)] ∧
    (RainStream.init 0 3 1 (rc 0)).col = 0 ∧
    (∀ c, ((RainStream.init 0 3 1 (rc 0)).reset c).length = 3) := by
  refine ⟨?_, rfl, fun c => rfl⟩
  unfold create_streams
  rw [if_neg (by norm_num), show (1 : Int).toNat = 1 from rfl,
    show List.range 1 = [0] from by decide]
  simp [List.filterMap_cons, (hr 0).2]

/-- Witness for C6 with concrete draws: every `random.random()` result 0. -/
theorem spec_C6_witness :
    (∀ i : Nat, (0 : ℚ) ≤ (fun _ : Nat => (0 : ℚ)) i ∧
        (fun _ : Nat => (0 : ℚ)) i < 1) ∧
    (create_streams 1 3 1 (fun _ => 0) (fun _ => sampleReset) =
        [RainStream.init 0 3 1 sampleReset] ∧
      (RainStream.init 0 3 1 sampleReset).col = 0 ∧
      (∀ c, ((RainStream.init 0 3 1 sampleReset).reset c).length = 3)) :=
  ⟨fun i => ⟨le_refl 0, by norm_num⟩,
    spec_C6 (fun _ => 0) (fun _ => sampleReset) (fun i => ⟨le_refl 0, by norm_num⟩)⟩
